import Mathlib

/-! Verification of the Pathfinder capture-and-describe application (src/App.js).

The file gives a shallow embedding of the application's session state, the
startup permission request, prompt derivation, the capture-and-describe
pipeline `processImage`, and the stop control, and proves the specified
properties about them.  JavaScript values that may be `undefined` are
modelled as `Option`; the external world (camera capture, the network call,
JSON parsing) is an explicit environment argument, and observable side
effects (speech, the HTTP request, taking the picture) are returned as an
event trace. -/

namespace Pathfinder

/-- One part of a response candidate; its `text` field may be absent. -/
structure Part where
  text : Option String
deriving DecidableEq

/-- The `content` object of a response candidate; `parts` may be absent. -/
structure Content where
  parts : Option (List Part)
deriving DecidableEq

/-- One candidate of a parsed inference response. -/
structure Candidate where
  content : Option Content
deriving DecidableEq

/-- A parsed inference response body; `candidates` may be absent. -/
structure GeminiResult where
  candidates : Option (List Candidate)
deriving DecidableEq

/-- The fixed fallback sentence of App.js line 167. -/
def fallbackDescription : String :=
  "No clear description was generated. Please try again."

/-- The condition of App.js lines 162-164: `candidates` present and nonempty,
the first candidate has `content` with `parts` present and nonempty. -/
def hasCandidateShape (r : GeminiResult) : Bool :=
  match r.candidates with
  | none => false
  | some cands =>
    match cands.head? with
    | none => false
    | some c0 =>
      match c0.content with
      | none => false
      | some ct =>
        match ct.parts with
        | none => false
        | some ps => decide (0 < ps.length)

/-- The first candidate's first part's `text` field, when every step of the
access path `candidates[0].content.parts[0].text` is present. -/
def firstPartText (r : GeminiResult) : Option String :=
  ((((r.candidates.bind List.head?).bind Candidate.content).bind
      Content.parts).bind List.head?).bind Part.text

/-- The description chosen from a parsed response (App.js lines 161-168):
the first candidate's first part's `text` when the candidate shape is
present, the fixed fallback sentence otherwise.  `none` models the
JavaScript value `undefined`. -/
def describeResult (r : GeminiResult) : Option String :=
  if hasCandidateShape r then firstPartText r else some fallbackDescription

/-- The prompt of the `read` mode (App.js line 100). -/
def readPrompt : String :=
  "Extract all readable text from this image. No extra commentary or explanation. Prioritize the most important text."

/-- The prompt of the `navigate` mode (App.js line 102). -/
def navigatePrompt : String :=
  "Describe the immediate environment for indoor navigation. Identify key objects, obstacles, pathways, and directional cues. Mention any furniture, doors, stairs, changes in floor level, or other significant features. Provide guidance on what's directly in front, to the left, and to the right. Highlight potential hazards or clear paths."

/-- The prompt of the `passive` mode and of the switch's default branch
(App.js lines 103-105). -/
def passivePrompt : String :=
  "Describe the scene briefly. Focus on elements that would be helpful for a visually impaired person to navigate or understand their surroundings. For example, if there's text, read it out. If there are obstacles, describe them. Be concise but informative."

/-- App.js lines 97-107: the switch on the mode string; `passive` and the
default case share one branch. -/
def getPromptForMode (mode : String) : String :=
  if mode = "read" then readPrompt
  else if mode = "navigate" then navigatePrompt
  else passivePrompt

/-- App.js line 114. -/
def cameraNotReadyMessage : String :=
  "Camera not ready. Please wait or refresh the app."

/-- App.js line 119 (displayed, not spoken). -/
def analyzingMessage : String :=
  "Analyzing image, please wait..."

/-- App.js line 305. -/
def stoppedMessage : String :=
  "Stopped all operations"

/-- App.js line 173: the caught error's message wrapped into the user-facing
sentence. -/
def errorDescriptionMessage (m : String) : String :=
  "Failed to get description: " ++ m ++ ". Please try again."

/-- App.js line 150 (the placeholder key checked into the source). -/
def apiKey : String := "\x7binsert here\x7d"

/-- The fixed model identifier inside the endpoint URL (App.js line 151). -/
def modelId : String := "gemini-2.0-flash"

/-- App.js line 151: the endpoint URL, authenticated via a query-string key. -/
def apiUrl : String :=
  "https://generativelanguage.googleapis.com/v1beta/models/" ++ modelId
    ++ ":generateContent?key=" ++ apiKey

/-- The `inlineData` object of the request payload. -/
structure InlineData where
  mimeType : String
  data : String
deriving DecidableEq

/-- One part of the request payload: a text part or an inline-image part. -/
inductive RequestPart where
  | textPart (text : String)
  | imagePart (inlineData : InlineData)
deriving DecidableEq

/-- One turn of the request payload. -/
structure RequestContent where
  role : String
  parts : List RequestPart
deriving DecidableEq

/-- The request body of App.js lines 133-148. -/
structure Payload where
  contents : List RequestContent
deriving DecidableEq

/-- The HTTP request issued by App.js lines 153-157. -/
structure HttpRequest where
  url : String
  method : String
  body : Payload
deriving DecidableEq

/-- App.js lines 133-148: the single-turn body holding the prompt and the
base64 image. -/
def buildPayload (prompt : String) (base64ImageData : String) : Payload :=
  { contents := [
      { role := "user",
        parts := [
          RequestPart.textPart prompt,
          RequestPart.imagePart { mimeType := "image/jpeg", data := base64ImageData } ] } ] }

/-- Observable side effects of a run, in order. -/
inductive Event where
  | speechStop
  | speak (text : Option String)
  | takePicture
  | fetch (req : HttpRequest)
deriving DecidableEq

/-- The mutable session state of the App component (App.js lines 20-25);
`cameraRefPresent` records whether `cameraRef.current` is non-null. -/
structure AppState where
  hasPermission : Option Bool
  cameraReady : Bool
  cameraRefPresent : Bool
  currentMode : String
  message : Option String
  isProcessing : Bool
deriving DecidableEq

/-- The initial state of App.js lines 20-25 (camera ref starts null). -/
def initialState : AppState :=
  { hasPermission := none, cameraReady := false, cameraRefPresent := false,
    currentMode := "passive", message := some "Initializing app...",
    isProcessing := false }

/-- App.js lines 184-191: `speak` stops the current utterance and starts the
new one. -/
def speakEvents (text : Option String) : List Event :=
  [Event.speechStop, Event.speak text]

/-- App.js lines 32-37: set the displayed message and optionally speak it. -/
def updateMessage (s : AppState) (msg : Option String) (shouldSpeak : Bool) :
    AppState × List Event :=
  ({ s with message := msg }, if shouldSpeak then speakEvents msg else [])

/-- Outcome of the awaited `takePictureAsync` call. -/
inductive CaptureOutcome where
  | ok (base64 : String)
  | throws (msg : String)
deriving DecidableEq

/-- Outcome of the awaited `response.json()` call. -/
inductive JsonOutcome where
  | ok (result : GeminiResult)
  | throws (msg : String)
deriving DecidableEq

/-- A fetch response: an HTTP status and the body's parse outcome. -/
structure HttpResponse where
  status : Nat
  json : JsonOutcome
deriving DecidableEq

/-- Outcome of the awaited `fetch` call. -/
inductive FetchOutcome where
  | response (resp : HttpResponse)
  | throws (msg : String)
deriving DecidableEq

/-- The external world seen by one `processImage` run. -/
structure PipelineEnv where
  capture : CaptureOutcome
  fetchResult : FetchOutcome
deriving DecidableEq

/-- App.js lines 112-178: the capture-and-describe pipeline.  The guard of
lines 113-116 returns early; otherwise the processing flag is raised, the
analyzing status is displayed (not spoken), speech is stopped, and the
try/catch/finally runs: any throwing step lands in the catch with its
message, a parsed body is reduced by `describeResult`, and the finally
clause clears the processing flag on every path. -/
def processImage (s : AppState) (env : PipelineEnv) : AppState × List Event :=
  if !s.cameraReady || !s.cameraRefPresent then
    updateMessage s (some cameraNotReadyMessage) true
  else
    let s1 := { s with isProcessing := true }
    let (s2, ev1) := updateMessage s1 (some analyzingMessage) false
    let ev2 := ev1 ++ [Event.speechStop]
    match env.capture with
    | CaptureOutcome.throws m =>
      let (s3, ev3) := updateMessage s2 (some (errorDescriptionMessage m)) true
      ({ s3 with isProcessing := false }, ev2 ++ [Event.takePicture] ++ ev3)
    | CaptureOutcome.ok base64 =>
      let prompt := getPromptForMode s.currentMode
      let req : HttpRequest :=
        { url := apiUrl, method := "POST", body := buildPayload prompt base64 }
      match env.fetchResult with
      | FetchOutcome.throws m =>
        let (s3, ev3) := updateMessage s2 (some (errorDescriptionMessage m)) true
        ({ s3 with isProcessing := false },
          ev2 ++ [Event.takePicture, Event.fetch req] ++ ev3)
      | FetchOutcome.response resp =>
        match resp.json with
        | JsonOutcome.throws m =>
          let (s3, ev3) := updateMessage s2 (some (errorDescriptionMessage m)) true
          ({ s3 with isProcessing := false },
            ev2 ++ [Event.takePicture, Event.fetch req] ++ ev3)
        | JsonOutcome.ok result =>
          let (s3, ev3) := updateMessage s2 (describeResult result) true
          ({ s3 with isProcessing := false },
            ev2 ++ [Event.takePicture, Event.fetch req] ++ ev3)

/-- App.js lines 302-306: the stop control stops speech, clears the
processing flag, and announces the stopped message. -/
def stopOperation (s : AppState) : AppState × List Event :=
  let s1 := { s with isProcessing := false }
  let (s2, ev) := updateMessage s1 (some stoppedMessage) true
  (s2, Event.speechStop :: ev)

/-- The message thrown inside the pipeline's environment, when one of the
three awaited steps (capture, fetch, JSON parsing) fails. -/
def envErrorMessage (env : PipelineEnv) : Option String :=
  match env.capture with
  | CaptureOutcome.throws m => some m
  | CaptureOutcome.ok _ =>
    match env.fetchResult with
    | FetchOutcome.throws m => some m
    | FetchOutcome.response resp =>
      match resp.json with
      | JsonOutcome.throws m => some m
      | JsonOutcome.ok _ => none

/-- The text a guard-passing pipeline run ends with: the extracted
description or fallback on the parsed path, the wrapped error message on any
throwing path. -/
def pipelineResultText (env : PipelineEnv) : Option String :=
  match env.capture with
  | CaptureOutcome.throws m => some (errorDescriptionMessage m)
  | CaptureOutcome.ok _ =>
    match env.fetchResult with
    | FetchOutcome.throws m => some (errorDescriptionMessage m)
    | FetchOutcome.response resp =>
      match resp.json with
      | JsonOutcome.throws m => some (errorDescriptionMessage m)
      | JsonOutcome.ok result => describeResult result

/-- The HTTP requests contained in an event trace, in order. -/
def requestsOf (evs : List Event) : List HttpRequest :=
  evs.filterMap fun e =>
    match e with
    | Event.fetch req => some req
    | _ => none

/-- Outcome of the awaited camera permission request. -/
inductive PermissionOutcome where
  | granted
  | denied
  | throws (msg : String)
deriving DecidableEq

/-- The external world seen by the startup permission request:
whether the camera module is present at all, and the request's outcome. -/
structure PermissionEnv where
  cameraModuleAvailable : Bool
  outcome : PermissionOutcome
deriving DecidableEq

/-- One spoken status announcement; `delayed` records whether it was issued
through the 500 ms `setTimeout` of the finally clause. -/
structure Announcement where
  text : String
  delayed : Bool
deriving DecidableEq

/-- App.js line 44 (displayed, not spoken). -/
def requestingMessage : String :=
  "Requesting camera and speech permissions..."

/-- App.js line 55. -/
def moduleNotFoundMessage : String :=
  "Camera module not found or not functional."

/-- App.js line 65. -/
def permissionsGrantedMessage : String :=
  "Camera and Speech permissions granted. Select a mode and tap the button."

/-- App.js line 71 (speech is always granted, so only the camera sentence is
appended to the empty message). -/
def cameraDeniedMessage : String :=
  "Camera permission not granted. Please enable it in settings. "

/-- App.js line 79. -/
def permissionErrorMessage (m : String) : String :=
  "Error requesting permissions: " ++ m ++ "."

/-- App.js lines 41-86: the startup permission request.  The initial
requesting message is displayed unspoken; when the camera module is absent
the routine announces the module-not-found message immediately and returns,
but the finally clause still announces the same message again after the
delay; on every other path only the finally clause announces the resulting
status, after the delay. -/
def requestPermissions (s : AppState) (env : PermissionEnv) :
    AppState × List Announcement :=
  let s0 := { s with message := some requestingMessage }
  if env.cameraModuleAvailable then
    match env.outcome with
    | PermissionOutcome.granted =>
      let pm := permissionsGrantedMessage
      ({ s0 with
          hasPermission := some true
          currentMode := "passive"
          message := some pm }, [⟨pm, true⟩])
    | PermissionOutcome.denied =>
      let pm := cameraDeniedMessage
      ({ s0 with hasPermission := some false, message := some pm }, [⟨pm, true⟩])
    | PermissionOutcome.throws m =>
      let pm := permissionErrorMessage m
      ({ s0 with hasPermission := some false, message := some pm }, [⟨pm, true⟩])
  else
    let pm := moduleNotFoundMessage
    ({ s0 with hasPermission := some false, message := some pm },
      [⟨pm, false⟩, ⟨pm, true⟩])

/-- The resulting status message of one permission-request run. -/
def permissionStatusMessage (env : PermissionEnv) : String :=
  if env.cameraModuleAvailable then
    match env.outcome with
    | PermissionOutcome.granted => permissionsGrantedMessage
    | PermissionOutcome.denied => cameraDeniedMessage
    | PermissionOutcome.throws m => permissionErrorMessage m
  else moduleNotFoundMessage

/-- A session state whose camera is ready and referenced. -/
def readyState : AppState :=
  { hasPermission := some true, cameraReady := true, cameraRefPresent := true,
    currentMode := "passive", message := none, isProcessing := false }

/-- A session state whose camera is not yet ready. -/
def notReadyState : AppState :=
  { hasPermission := some true, cameraReady := false, cameraRefPresent := true,
    currentMode := "read", message := none, isProcessing := false }

/-- A sample pipeline environment: capture succeeds, the response parses but
carries no candidates. -/
def sampleEnv : PipelineEnv :=
  ⟨CaptureOutcome.ok "frame", FetchOutcome.response ⟨200, JsonOutcome.ok ⟨some []⟩⟩⟩

/-- C1: every invocation of processImage that passes the camera guard and runs
to completion (success, fallback, or caught error path) ends with the
processing flag false and with the path's resulting text — extracted
description, fallback sentence, or error message — as the final message,
announced through the speech channel. -/
theorem processImage_postcondition (s : AppState) (env : PipelineEnv)
    (hready : s.cameraReady = true) (href : s.cameraRefPresent = true) :
    (processImage s env).1.isProcessing = false ∧
    (processImage s env).1.message = pipelineResultText env ∧
    Event.speak (pipelineResultText env) ∈ (processImage s env).2 := by
  rcases env with ⟨cap, fr⟩
  cases cap with
  | throws m =>
    simp [processImage, hready, href, updateMessage, speakEvents, pipelineResultText]
  | ok b =>
    cases fr with
    | throws m =>
      simp [processImage, hready, href, updateMessage, speakEvents, pipelineResultText]
    | response resp =>
      rcases resp with ⟨st, j⟩
      cases j <;>
        simp [processImage, hready, href, updateMessage, speakEvents, pipelineResultText]

theorem processImage_postcondition_witness :
    (processImage readyState sampleEnv).1.isProcessing = false ∧
    (processImage readyState sampleEnv).1.message = pipelineResultText sampleEnv ∧
    Event.speak (pipelineResultText sampleEnv) ∈ (processImage readyState sampleEnv).2 :=
  processImage_postcondition readyState sampleEnv rfl rfl

/-- C2: with the camera not ready or the camera reference absent, processImage
announces the camera-not-ready message, issues no inference request, and
leaves the processing flag unchanged — the early return's only effect is that
message and its announcement. -/
theorem processImage_cameraNotReady (s : AppState) (env : PipelineEnv)
    (h : s.cameraReady = false ∨ s.cameraRefPresent = false) :
    processImage s env =
      ({ s with message := some cameraNotReadyMessage },
        [Event.speechStop, Event.speak (some cameraNotReadyMessage)]) ∧
    requestsOf (processImage s env).2 = [] ∧
    (processImage s env).1.isProcessing = s.isProcessing := by
  have hguard : (!s.cameraReady || !s.cameraRefPresent) = true := by
    rcases h with h | h <;> simp [h]
  simp [processImage, hguard, updateMessage, speakEvents, requestsOf]

theorem processImage_cameraNotReady_witness :
    processImage notReadyState sampleEnv =
      ({ notReadyState with message := some cameraNotReadyMessage },
        [Event.speechStop, Event.speak (some cameraNotReadyMessage)]) ∧
    requestsOf (processImage notReadyState sampleEnv).2 = [] ∧
    (processImage notReadyState sampleEnv).1.isProcessing = notReadyState.isProcessing :=
  processImage_cameraNotReady notReadyState sampleEnv (Or.inl rfl)

/-- C3: a response parsing to a body with at least one candidate whose content
has at least one part, the first part carrying text X, makes processImage
extract exactly X: the final message is X and X is announced. -/
theorem processImage_extracts_first_text (s : AppState) (b x : String)
    (status : Nat) (ps : List Part) (cs : List Candidate)
    (hready : s.cameraReady = true) (href : s.cameraRefPresent = true) :
    (processImage s ⟨CaptureOutcome.ok b, FetchOutcome.response
        ⟨status, JsonOutcome.ok ⟨some (⟨some ⟨some (⟨some x⟩ :: ps)⟩⟩ :: cs)⟩⟩⟩).1.message
      = some x ∧
    Event.speak (some x) ∈
      (processImage s ⟨CaptureOutcome.ok b, FetchOutcome.response
        ⟨status, JsonOutcome.ok ⟨some (⟨some ⟨some (⟨some x⟩ :: ps)⟩⟩ :: cs)⟩⟩⟩).2 := by
  simp [processImage, hready, href, updateMessage, speakEvents, describeResult,
    hasCandidateShape, firstPartText]

theorem processImage_extracts_first_text_witness :
    (processImage readyState ⟨CaptureOutcome.ok "frame", FetchOutcome.response
        ⟨200, JsonOutcome.ok ⟨some [⟨some ⟨some [⟨some "Room 204"⟩]⟩⟩]⟩⟩⟩).1.message
      = some "Room 204" ∧
    Event.speak (some "Room 204") ∈
      (processImage readyState ⟨CaptureOutcome.ok "frame", FetchOutcome.response
        ⟨200, JsonOutcome.ok ⟨some [⟨some ⟨some [⟨some "Room 204"⟩]⟩⟩]⟩⟩⟩).2 :=
  processImage_extracts_first_text readyState "frame" "Room 204" 200 [] [] rfl rfl

/-- C4 counterexample: on the response with an empty candidates list the
substituted string is not the claim's quoted "no clear description
generated". -/
theorem describeResult_fallback_string_differs :
    describeResult ⟨some []⟩ ≠ some "no clear description generated" := by
  decide

/-- C4 (amended): a parsed response lacking the candidate shape makes
processImage substitute the fixed fallback sentence "No clear description was
generated. Please try again." as the result and complete through the normal
branch — no exception path, the processing flag clears. -/
theorem processImage_fallback (s : AppState) (b : String) (status : Nat)
    (r : GeminiResult)
    (hready : s.cameraReady = true) (href : s.cameraRefPresent = true)
    (hshape : hasCandidateShape r = false) :
    (processImage s ⟨CaptureOutcome.ok b,
        FetchOutcome.response ⟨status, JsonOutcome.ok r⟩⟩).1.message
      = some fallbackDescription ∧
    Event.speak (some fallbackDescription) ∈
      (processImage s ⟨CaptureOutcome.ok b,
        FetchOutcome.response ⟨status, JsonOutcome.ok r⟩⟩).2 ∧
    (processImage s ⟨CaptureOutcome.ok b,
        FetchOutcome.response ⟨status, JsonOutcome.ok r⟩⟩).1.isProcessing = false := by
  simp [processImage, hready, href, updateMessage, speakEvents, describeResult, hshape]

theorem processImage_fallback_witness :
    hasCandidateShape ⟨some []⟩ = false ∧
    (processImage readyState ⟨CaptureOutcome.ok "frame",
        FetchOutcome.response ⟨200, JsonOutcome.ok ⟨some []⟩⟩⟩).1.message
      = some fallbackDescription ∧
    Event.speak (some fallbackDescription) ∈
      (processImage readyState ⟨CaptureOutcome.ok "frame",
        FetchOutcome.response ⟨200, JsonOutcome.ok ⟨some []⟩⟩⟩).2 :=
  ⟨rfl,
    (processImage_fallback readyState "frame" 200 ⟨some []⟩ rfl rfl rfl).1,
    (processImage_fallback readyState "frame" 200 ⟨some []⟩ rfl rfl rfl).2.1⟩

/-- C5: when any awaited step throws with message m, processImage ends with
exactly "Failed to get description: m. Please try again." as the message,
announces it, and clears the processing flag — the error is never silently
dropped. -/
theorem processImage_error_message (s : AppState) (env : PipelineEnv) (m : String)
    (hready : s.cameraReady = true) (href : s.cameraRefPresent = true)
    (herr : envErrorMessage env = some m) :
    (processImage s env).1.message = some (errorDescriptionMessage m) ∧
    Event.speak (some (errorDescriptionMessage m)) ∈ (processImage s env).2 ∧
    (processImage s env).1.isProcessing = false := by
  rcases env with ⟨cap, fr⟩
  cases cap with
  | throws m2 =>
    simp [envErrorMessage] at herr
    subst herr
    simp [processImage, hready, href, updateMessage, speakEvents]
  | ok b =>
    cases fr with
    | throws m2 =>
      simp [envErrorMessage] at herr
      subst herr
      simp [processImage, hready, href, updateMessage, speakEvents]
    | response resp =>
      rcases resp with ⟨st, j⟩
      cases j with
      | ok r => simp [envErrorMessage] at herr
      | throws m2 =>
        simp [envErrorMessage] at herr
        subst herr
        simp [processImage, hready, href, updateMessage, speakEvents]

theorem processImage_error_message_witness :
    envErrorMessage ⟨CaptureOutcome.ok "frame", FetchOutcome.throws "timeout"⟩
      = some "timeout" ∧
    errorDescriptionMessage "timeout"
      = "Failed to get description: timeout. Please try again." ∧
    (processImage readyState
        ⟨CaptureOutcome.ok "frame", FetchOutcome.throws "timeout"⟩).1.message
      = some (errorDescriptionMessage "timeout") ∧
    Event.speak (some (errorDescriptionMessage "timeout")) ∈
      (processImage readyState
        ⟨CaptureOutcome.ok "frame", FetchOutcome.throws "timeout"⟩).2 :=
  ⟨rfl, by decide,
    (processImage_error_message readyState
      ⟨CaptureOutcome.ok "frame", FetchOutcome.throws "timeout"⟩ "timeout" rfl rfl rfl).1,
    (processImage_error_message readyState
      ⟨CaptureOutcome.ok "frame", FetchOutcome.throws "timeout"⟩ "timeout" rfl rfl rfl).2.1⟩

/-- C6: the stop control's trace begins by cancelling speech, the processing
flag is forced to false from any state (an in-flight capture included), and
the fixed stopped message is announced. -/
theorem stopOperation_spec (s : AppState) :
    (stopOperation s).1.isProcessing = false ∧
    (stopOperation s).1.message = some stoppedMessage ∧
    (stopOperation s).2 =
      [Event.speechStop, Event.speechStop, Event.speak (some stoppedMessage)] := by
  simp [stopOperation, updateMessage, speakEvents]

/-- C7 counterexample: with the camera module absent the resulting status
message is announced twice — immediately and again after the delay — so not
exactly once after the delay. -/
theorem requestPermissions_absent_module_double_announce :
    (requestPermissions initialState ⟨false, PermissionOutcome.granted⟩).2 =
      [⟨moduleNotFoundMessage, false⟩, ⟨moduleNotFoundMessage, true⟩] ∧
    (requestPermissions initialState ⟨false, PermissionOutcome.granted⟩).2.length ≠ 1 := by
  constructor
  · rfl
  · decide

/-- C7 (amended): the permission request announces the resulting status
exactly once, after the fixed delay, on every outcome with the camera module
available (granted, denied, exception); when the camera capability is absent
the same status message is announced twice, immediately and again after the
delay. -/
theorem requestPermissions_announcements (s : AppState) (env : PermissionEnv) :
    (requestPermissions s env).2 =
      (if env.cameraModuleAvailable then [⟨permissionStatusMessage env, true⟩]
        else [⟨permissionStatusMessage env, false⟩,
              ⟨permissionStatusMessage env, true⟩]) := by
  rcases env with ⟨avail, outcome⟩
  cases avail <;> cases outcome <;> simp [requestPermissions, permissionStatusMessage]

/-- C8: whatever the mode and whatever the network later does, a guard-passing
run whose capture yields base64 data b issues exactly one POST to the fixed
gemini-2.0-flash endpoint, whose body is the single-turn shape
contents:[role:"user", parts:[text prompt(mode), inlineData "image/jpeg" b]] —
a single request, hence no retry. -/
theorem processImage_single_request (s : AppState) (b : String) (fr : FetchOutcome)
    (hready : s.cameraReady = true) (href : s.cameraRefPresent = true) :
    apiUrl = "https://generativelanguage.googleapis.com/v1beta/models/gemini-2.0-flash:generateContent?key=\x7binsert here\x7d" ∧
    requestsOf (processImage s ⟨CaptureOutcome.ok b, fr⟩).2 =
      [{ url := apiUrl
         method := "POST"
         body := { contents := [
           { role := "user"
             parts := [
               RequestPart.textPart (getPromptForMode s.currentMode),
               RequestPart.imagePart { mimeType := "image/jpeg", data := b } ] } ] } }] := by
  constructor
  · decide
  · cases fr with
    | throws m =>
      simp [processImage, hready, href, updateMessage, speakEvents, requestsOf, buildPayload]
    | response resp =>
      rcases resp with ⟨st, j⟩
      cases j <;>
        simp [processImage, hready, href, updateMessage, speakEvents, requestsOf, buildPayload]

theorem processImage_single_request_witness :
    apiUrl = "https://generativelanguage.googleapis.com/v1beta/models/gemini-2.0-flash:generateContent?key=\x7binsert here\x7d" ∧
    requestsOf (processImage readyState
        ⟨CaptureOutcome.ok "frame", FetchOutcome.throws "down"⟩).2 =
      [{ url := apiUrl
         method := "POST"
         body := { contents := [
           { role := "user"
             parts := [
               RequestPart.textPart (getPromptForMode readyState.currentMode),
               RequestPart.imagePart { mimeType := "image/jpeg", data := "frame" } ] } ] } }] :=
  processImage_single_request readyState "frame" (FetchOutcome.throws "down") rfl rfl

/-- C9: processImage never inspects the HTTP status: two responses differing
only in their status produce identical runs, and an HTTP error status whose
JSON body parses but lacks the candidate shape still yields the fallback
sentence — not an error message, since the catch path is reserved for
throwing steps. -/
theorem processImage_ignores_status (s : AppState) (c : CaptureOutcome)
    (j : JsonOutcome) (st st2 : Nat) (b : String) (r : GeminiResult)
    (hready : s.cameraReady = true) (href : s.cameraRefPresent = true)
    (hshape : hasCandidateShape r = false) :
    processImage s ⟨c, FetchOutcome.response ⟨st, j⟩⟩ =
      processImage s ⟨c, FetchOutcome.response ⟨st2, j⟩⟩ ∧
    (processImage s ⟨CaptureOutcome.ok b,
        FetchOutcome.response ⟨st, JsonOutcome.ok r⟩⟩).1.message
      = some fallbackDescription := by
  constructor
  · cases c <;> cases j <;> rfl
  · simp [processImage, hready, href, updateMessage, speakEvents, describeResult, hshape]

theorem processImage_ignores_status_witness :
    processImage readyState
        ⟨CaptureOutcome.ok "frame", FetchOutcome.response ⟨500, JsonOutcome.ok ⟨some []⟩⟩⟩ =
      processImage readyState
        ⟨CaptureOutcome.ok "frame", FetchOutcome.response ⟨200, JsonOutcome.ok ⟨some []⟩⟩⟩ ∧
    (processImage readyState
        ⟨CaptureOutcome.ok "frame",
          FetchOutcome.response ⟨500, JsonOutcome.ok ⟨some []⟩⟩⟩).1.message
      = some fallbackDescription :=
  processImage_ignores_status readyState (CaptureOutcome.ok "frame")
    (JsonOutcome.ok ⟨some []⟩) 500 200 "frame" ⟨some []⟩ rfl rfl rfl

/-- C10: prompt derivation is total: any mode string other than "read" and
"navigate" — "passive", the empty string, unknown values — yields the passive
prompt, so deriving a prompt never fails. -/
theorem getPromptForMode_default (mode : String)
    (hr : mode ≠ "read") (hn : mode ≠ "navigate") :
    getPromptForMode mode = passivePrompt := by
  simp [getPromptForMode, hr, hn]

theorem getPromptForMode_default_witness :
    ("unknown-mode" : String) ≠ "read" ∧ ("unknown-mode" : String) ≠ "navigate" ∧
    getPromptForMode "unknown-mode" = passivePrompt :=
  ⟨by decide, by decide, getPromptForMode_default "unknown-mode" (by decide) (by decide)⟩

end Pathfinder
